import Mathlib

/-!
# Verification of the EditAPP local-first sync / job-orchestration core

Shallow embedding of the data-synchronization and background-job subsystem of
the repository (ProcessingService in `src/unnamed/part_001`,
`src/app/utils/storage.ts`, `src/app/utils/analytics.ts`,
`src/app/services/BackgroundTaskManager.ts`), together with proofs and
refutations of the specification's claims about it.

Conventions of the embedding:
* asynchronous JS functions that either resolve or throw are modelled as
  `Except String α` (the thrown `Error.message` is the `String`);
* the three key-value backends (SecureStore, AsyncStorage, localStorage) are
  association lists; the app is modelled on a native platform (not web),
  so the browser-style store never participates;
* `JSON.parse (JSON.stringify v)` is modelled as the identity, so stored
  values are kept structurally; storage keys are modelled by a structured
  `Key` type whose constructors correspond to the pairwise-distinct string
  key shapes (`session_<id>`, `device_sessions_<id>`, `sessions_index`, ...)
  used by the code;
* remote calls (`getSessionDetails`, `getSessionTerms`, upload, fetch) are
  oracles: their outcomes are inputs of the model.
-/

namespace EditApp

/-! ## Data model

The `SessionDetailsApiResponse` type lives in `src/app/services/api` (not part
of the analysed sources); the fields below are the ones the embedded functions
actually read.  Optional JSON fields are `Option`; JS truthiness on them is
made explicit at each use site. -/

/-- One analysis-result term (`analysis_results[]` entry). -/
structure AnalysisTerm where
  term_id : String
  term_text : String
  is_valid_sharia : Option Bool
  expert_override_is_valid_sharia : Option Bool
  is_confirmed_by_user : Option Bool
  has_expert_feedback : Bool
  deriving Repr, DecidableEq

/-- An analysis session record as read/written by the storage layer. -/
structure Session where
  session_id : String
  original_filename : Option String
  analysis_results : Option (List AnalysisTerm)
  compliance_percentage : Option Int
  analysis_timestamp : Option String
  detected_contract_language : Option String
  original_cloudinary_url : Option String
  deriving Repr, DecidableEq

/-! ## ProcessingService polling schedule (`src/unnamed/part_001`, lines 134-200)

```js
// Start with 2s, then gradual increase
const getInterval = () => Math.min(2000 + job.retryCount * 1000, 15000);
job.pollInterval = setInterval(pollFunction, getInterval());
// Call once immediately after a short delay
setTimeout(pollFunction, 1000);
```
-/

/-- `getInterval` of `startPolling`: `Math.min(2000 + retryCount*1000, 15000)`. -/
def getIntervalMs (retryCount : Nat) : Nat :=
  min (2000 + retryCount * 1000) 15000

/-- The initial one-shot delay: `setTimeout(pollFunction, 1000)`. -/
def initialPollDelayMs : Nat := 1000

/-- `setInterval(pollFunction, getInterval())` evaluates its delay argument
exactly once, when the timer is installed; `retryCountAtStart` is
`job.retryCount` at that moment (0 for a job freshly created by
`startAnalysis`). -/
def installedIntervalMs (retryCountAtStart : Nat) : Nat :=
  getIntervalMs retryCountAtStart

/-- The delay between interval ticks `tick` and `tick+1` of the timer
installed by `startPolling`: a `setInterval` timer fires at a fixed period,
so the delay is the installed one regardless of `tick` and regardless of how
`job.retryCount` has evolved since. -/
def actualDelayBetweenPolls (retryCountAtStart : Nat) (_tick : Nat) : Nat :=
  installedIntervalMs retryCountAtStart

/-- Modelled from the spec: the delay the specification claims before the
next poll once `retryCount` retries have accumulated
(`min(2000 + retryCount*1000, 15000)`, "grows by 1 second per accumulated
retry"). Kept separate from the source-derived definitions for comparison. -/
def claimedDelayBetweenPolls (retryCount : Nat) : Nat :=
  getIntervalMs retryCount

/-! ## Poll-tick state machine (`src/unnamed/part_001`, lines 134-296) -/

/-- The (typo'd) Arabic "session not found" pattern string literal used by the
source, preserved verbatim. -/
def notFoundPatternArabic : String := "االجلسة غير موجودة"

/-- JS `String.prototype.includes`: substring containment. -/
def strIncludes (s pat : String) : Bool :=
  decide (pat.toList <:+: s.toList)

/-- The "session not found" error-message patterns checked (identically) in
`checkJobStatus`, `shouldStopPolling` and the poll catch branch. -/
def isNotFoundMsg (msg : String) : Bool :=
  strIncludes msg notFoundPatternArabic ||
  strIncludes msg "Session not found" ||
  strIncludes msg "404"

/-- Oracle outcome of one `getSessionDetails` status fetch, together with the
outcome of the supplementary `getSessionTerms` fetch that `checkJobStatus`
performs when only the timestamp is present (`supplTermsNonempty` is `true`
iff that supplementary fetch succeeds and returns a nonempty term list). -/
inductive StatusFetch where
  | ok (hasResults : Bool) (hasTimestamp : Bool) (supplTermsNonempty : Bool)
  | err (msg : String)
  deriving Repr, DecidableEq

/-- `checkJobStatus` (lines 225-296).  Its entire body is inside a
`try`/`catch` whose catch returns `false` for every error (including the
"session not found" patterns, line 288: "Return false and let the retry logic
handle stopping"), so the function is total and never throws. -/
def checkJobStatus : StatusFetch → Bool
  | .ok hasResults hasTimestamp supplTermsNonempty =>
    if hasTimestamp && hasResults then true
    else if hasTimestamp && !hasResults then supplTermsNonempty
    else false
  | .err _ => false

/-- Oracle outcome of the one-off existence probe in `shouldStopPolling`. -/
inductive Probe where
  | found
  | probeErr (msg : String)
  deriving Repr, DecidableEq

/-- `shouldStopPolling` (lines 202-223): `true` only when the probe raises an
error matching the not-found patterns; any other error (and success)
continues polling. -/
def shouldStopPolling : Probe → Bool
  | .found => false
  | .probeErr msg => isNotFoundMsg msg

/-- In-memory per-job record (`AnalysisJob` minus the live timer handle).
`startAnalysis` creates jobs with `retryCount = 0`, `maxRetries = 50`. -/
structure JobState where
  retryCount : Nat
  maxRetries : Nat
  deriving Repr, DecidableEq

/-- The job a fresh `startAnalysis` registers (lines 102-108). -/
def newJob : JobState := { retryCount := 0, maxRetries := 50 }

/-- Terminal outcomes of a tracked job.  Each corresponds to one handler:
`complete` → `handleAnalysisComplete`, `timedOut` → `handleAnalysisTimeout`,
`notFound` → the `shouldStopPolling` early-exit calling
`handleAnalysisError(new Error('Session not found on server'))`,
`errored` → `handleAnalysisError` in the retries-exhausted catch branch.
Every handler schedules exactly one notification, and the transition removes
the job from the active set via `stopAnalysis`. -/
inductive Terminal where
  | complete
  | timedOut
  | notFound
  | errored
  deriving Repr, DecidableEq

/-- Result of one `pollFunction` tick. -/
inductive TickResult where
  | running (j : JobState)
  | stopped (t : Terminal)
  deriving Repr, DecidableEq

/-- One tick of `pollFunction` (lines 135-191).  `checkJobStatus` and
`shouldStopPolling` never throw (each swallows its own errors), so the tick
follows the `try` branch: if not complete, increment `retryCount`; from the
5th attempt on, consult the existence probe and stop as not-found when it
says so; stop as timed out once `maxRetries` is reached. -/
def pollTick (j : JobState) (f : StatusFetch) (p : Probe) : TickResult :=
  if checkJobStatus f then .stopped .complete
  else
    let r := j.retryCount + 1
    if 5 ≤ r && shouldStopPolling p then .stopped .notFound
    else if j.maxRetries ≤ r then .stopped .timedOut
    else .running { j with retryCount := r }

/-- Job status after `n` poll ticks driven by the oracle streams `f`, `p`,
starting from a fresh `startAnalysis` job. Once stopped, the timer is
cancelled and the state stays put. -/
def pollTrace (f : Nat → StatusFetch) (p : Nat → Probe) : Nat → TickResult
  | 0 => .running newJob
  | n + 1 =>
    match pollTrace f p n with
    | .running j => pollTick j (f n) (p n)
    | .stopped t => .stopped t

/-! ## Claims C1-C3 -/

/-- C1.  The claim asserts the delay between consecutive foreground polls is
`min(2000 + retryCount*1000, 15000)`, growing as retries accumulate.  The
source's own comment ("Start with 2s, then gradual increase") states the same
intent, but `setInterval(pollFunction, getInterval())` evaluates
`getInterval()` exactly once, so a fresh job (retryCount 0 at start) keeps a
fixed 2000 ms period: after one accumulated retry the claim requires a
3000 ms gap while the installed timer still fires every 2000 ms.  The 1 s
initial one-shot delay part of the claim does hold. -/
theorem c1_interval_never_escalates :
    actualDelayBetweenPolls 0 1 = 2000 ∧
    claimedDelayBetweenPolls 1 = 3000 ∧
    actualDelayBetweenPolls 0 1 ≠ claimedDelayBetweenPolls 1 ∧
    initialPollDelayMs = 1000 := by
  decide

/-- C2.  If no poll ever reports completion (`checkJobStatus` always `false`)
and the existence probe never says to stop, then after each of the first 49
polls the job is still active with `retryCount` equal to the number of polls
so far, and the 50th poll transitions it to `timedOut` (timeout notification
scheduled, job removed from the active set): exactly `maxRetries = 50`
unsuccessful polls, no more and no fewer. -/
theorem c2_timeout_after_exactly_fifty_polls
    (f : Nat → StatusFetch) (p : Nat → Probe)
    (hf : ∀ n, checkJobStatus (f n) = false)
    (hp : ∀ n, shouldStopPolling (p n) = false) :
    (∀ n, n < 50 → pollTrace f p n = .running ⟨n, 50⟩) ∧
    pollTrace f p 50 = .stopped .timedOut := by
  have key : ∀ n, n ≤ 49 → pollTrace f p n = .running ⟨n, 50⟩ := by
    intro n
    induction n with
    | zero => intro _; rfl
    | succ k ih =>
      intro hk
      have hrun : pollTrace f p k = .running ⟨k, 50⟩ := ih (Nat.le_of_succ_le hk)
      have h50 : ¬ (50 ≤ k + 1) := by omega
      simp [pollTrace, hrun, pollTick, hf k, hp k, h50]
  refine ⟨fun n hn => key n (by omega), ?_⟩
  have hrun : pollTrace f p 49 = .running ⟨49, 50⟩ := key 49 (by omega)
  have hstep : pollTrace f p (49 + 1) = .stopped .timedOut := by
    rw [pollTrace, hrun]
    simp [pollTick, hf 49, hp 49]
  exact hstep

/-- Witness for C2: the constantly-incomplete, never-not-found oracle streams
satisfy the hypotheses, and the job indeed times out at poll 50. -/
theorem c2_timeout_witness :
    pollTrace (fun _ => .ok false false false) (fun _ => .found) 49
      = .running ⟨49, 50⟩ ∧
    pollTrace (fun _ => .ok false false false) (fun _ => .found) 50
      = .stopped .timedOut := by
  have h := c2_timeout_after_exactly_fifty_polls
    (fun _ => .ok false false false) (fun _ => .found)
    (fun _ => rfl) (fun _ => rfl)
  exact ⟨h.1 49 (by omega), h.2⟩

/-- C3 counterexample.  A fresh job (retryCount 0) whose status fetch raises
an error matching the not-found patterns does NOT transition on that tick:
`checkJobStatus` swallows the error and returns `false` ("Return false and
let the retry logic handle stopping"), the probe gate `retryCount >= 5` is
not yet reached, so the tick merely increments `retryCount` and keeps
polling — refuting "transitions immediately ... regardless of the current
retryCount". -/
theorem c3_not_found_not_immediate :
    isNotFoundMsg "HTTP 404: Session not found" = true ∧
    pollTick newJob (.err "HTTP 404: Session not found")
        (.probeErr "HTTP 404: Session not found")
      = .running ⟨1, 50⟩ := by
  decide

/-- C3 amended.  A poll tick whose status fetch raises a not-found-matching
error increments `retryCount`; the job transitions to the not-found terminal
state on that same tick only once the incremented `retryCount` has reached 5
(the early-exit probe, which must itself report not-found); below that it
continues polling. -/
theorem c3_not_found_needs_five_retries
    (j : JobState) (msg pmsg : String)
    (hmax : j.maxRetries = 50)
    (_hm : isNotFoundMsg msg = true) (hpm : isNotFoundMsg pmsg = true) :
    pollTick j (.err msg) (.probeErr pmsg) =
      if 5 ≤ j.retryCount + 1 then .stopped .notFound
      else .running { j with retryCount := j.retryCount + 1 } := by
  have hcheck : checkJobStatus (.err msg) = false := rfl
  by_cases h5 : 5 ≤ j.retryCount + 1
  · simp [pollTick, hcheck, shouldStopPolling, hpm, h5]
  · have h50 : ¬ (j.maxRetries ≤ j.retryCount + 1) := by omega
    simp [pollTick, hcheck, shouldStopPolling, hpm, h5, h50]

/-- Witness for the amended C3: at retryCount 4 the incremented count reaches
5 and the tick stops the job as not-found; at retryCount 0 it keeps going. -/
theorem c3_amended_witness :
    pollTick ⟨4, 50⟩ (.err "Session not found") (.probeErr "Session not found")
      = .stopped .notFound ∧
    pollTick ⟨0, 50⟩ (.err "Session not found") (.probeErr "Session not found")
      = .running ⟨1, 50⟩ := by
  have h4 := c3_not_found_needs_five_retries ⟨4, 50⟩ "Session not found"
    "Session not found" rfl (by decide) (by decide)
  have h0 := c3_not_found_needs_five_retries ⟨0, 50⟩ "Session not found"
    "Session not found" rfl (by decide) (by decide)
  refine ⟨?_, ?_⟩
  · simpa using h4
  · simpa using h0

/-! ## Compliance derivation (`src/app/utils/storage.ts`, lines 452-520) -/

/-- JS truthiness of an optional string (`undefined`/`null`/`''` are falsy). -/
def strTruthy : Option String → Bool
  | some s => s ≠ ""
  | none => false

/-- JS `o || d` on an optional string. -/
def jsOr (o : Option String) (d : String) : String :=
  if strTruthy o then o.getD "" else d

/-- `Math.round (a / b)` for nonnegative `a / b`, rounding half away from
zero (i.e. half up), in exact arithmetic. -/
def jsRound (a b : Nat) : Nat := (2 * a + b) / (2 * b)

/-- The per-term compliance test of `calculateComplianceScore` (line 466):
`term.expert_override_is_valid_sharia ??
   (term.is_confirmed_by_user ? true : term.is_valid_sharia) ?? false`.
`??` is left associative and fires on `null`/`undefined` only; the ternary
tests JS truthiness of the optional boolean. -/
def termCompliant (t : AnalysisTerm) : Bool :=
  match t.expert_override_is_valid_sharia with
  | some b => b
  | none =>
    match (if t.is_confirmed_by_user = some true then some true
           else t.is_valid_sharia) with
    | some b => b
    | none => false

/-- `calculateComplianceScore` (lines 452-472): the server-supplied numeric
percentage when present, else `Math.round((compliantCount / results.length)
* 100)` over `analysis_results || []`, and 0 for an empty result list. -/
def calculateComplianceScore (s : Session) : Int :=
  match s.compliance_percentage with
  | some p => p
  | none =>
    let results := s.analysis_results.getD []
    if results.length = 0 then 0
    else (jsRound ((results.filter termCompliant).length * 100) results.length : Int)

/-- Modelled from the spec (for comparison with `termCompliant`): "a term
counts as compliant by the precedence: its expert-override value if present,
else true if user-confirmed, else its original `is_valid_sharia` judgment,
else false". -/
def specTermCompliant (t : AnalysisTerm) : Bool :=
  match t.expert_override_is_valid_sharia with
  | some b => b
  | none =>
    if t.is_confirmed_by_user = some true then true
    else match t.is_valid_sharia with
         | some b => b
         | none => false

/-- `!term.is_valid_sharia` as used for issue counting (JS `!` on an
optional boolean: `undefined` and `false` are falsy). -/
def termHasIssue (t : AnalysisTerm) : Bool := !(t.is_valid_sharia.getD false)

/-- `generateAnalysisSummary` (lines 475-490). -/
def generateAnalysisSummary (s : Session) : String :=
  let results := s.analysis_results.getD []
  let issuesCount := (results.filter termHasIssue).length
  let score := calculateComplianceScore s
  if issuesCount = 0 then
    "Contract is Sharia compliant (" ++ toString score
      ++ "% compliance). No issues found."
  else
    let plural := if 1 < issuesCount then "issues" else "issue"
    "Found " ++ toString issuesCount ++ " Sharia " ++ plural ++ " ("
      ++ toString score ++ "% compliance). Review required."

/-- `generateFlags` (lines 493-520). -/
def generateFlags (s : Session) : List String :=
  let results := s.analysis_results.getD []
  let issuesCount := (results.filter termHasIssue).length
  let score := calculateComplianceScore s
  (if score < 70 then ["Low Compliance"] else []) ++
  (if 0 < issuesCount then ["Needs Review"] else []) ++
  (if results.any (·.has_expert_feedback) then ["Expert Reviewed"] else []) ++
  (if 90 ≤ score then ["Highly Compliant"] else [])

/-! ## Key-value storage model (`src/app/utils/storage.ts`) -/

/-- Structured storage keys.  Each constructor denotes one of the string key
shapes used by the code (`session_<id>`, `device_sessions_<deviceId>`,
`sessions_index`, `shariaa_sessions`, `offline_analysis_<id>`,
`offline_analyses_index`, `restoration_<id>`).  The shapes are pairwise
distinct for all arguments — they begin with distinct literal prefixes, and
`sanitizeKey` (trim, character replacement, digit prefixing, truncation to 97
chars + `_tr`) preserves those leading literal characters — which the
constructor discipline mirrors. -/
inductive Key where
  | session (id : String)
  | deviceSessions (deviceId : String)
  | sessionsIndex
  | shariaaSessions
  | offlineAnalysis (id : String)
  | offlineAnalysesIndex
  | restoration (id : String)
  deriving Repr, DecidableEq

/-- `OfflineContractAnalysis` (lines 12-27) as written by
`storeOfflineAnalysis`. -/
structure OfflineContractAnalysis where
  id : String
  sessionId : String
  pdfUrl : Option String
  localPdfPath : String
  originalFilename : String
  summary : String
  complianceScore : Int
  flags : List String
  analysisDate : String
  isOfflineOnly : Bool
  termsCount : Nat
  issuesCount : Nat
  language : String
  fullSessionData : Session
  deriving Repr, DecidableEq

/-- The restoration breadcrumb record (lines 354-361). -/
structure RestorationData where
  sessionId : String
  timestamp : String
  deviceId : String
  analysisTermsCount : Nat
  compliancePercentage : Int
  originalFilename : Option String
  deriving Repr, DecidableEq

/-- A stored value, kept structurally (`JSON.parse ∘ JSON.stringify` is
modelled as the identity). -/
inductive Val where
  | sess (s : Session)
  | ids (l : List String)
  | offline (a : OfflineContractAnalysis)
  | restoration (r : RestorationData)
  deriving Repr, DecidableEq

/-- One key-value backend.  `kvSet` conses, `kvGet` is first-match, so later
writes shadow earlier ones — extensionally the overwrite semantics of the
real stores. -/
abbrev KVMap := List (Key × Val)

def kvSet (k : Key) (v : Val) (m : KVMap) : KVMap := (k, v) :: m

def kvGet (k : Key) : KVMap → Option Val
  | [] => none
  | (k', v) :: m => if k = k' then some v else kvGet k m

/-- The two native backends: SecureStore (the small-data path of
`getStorage`) and AsyncStorage (`nativeStorage`).  Backend operations are
modelled as succeeding, and a missing key resolves `null` on both stores, so
the SecureStore→AsyncStorage error-fallback branches of `getStorage` are
never taken.  The app is modelled on a native platform, so the web
(`localStorage`) branch never participates. -/
structure Stores where
  secure : KVMap
  async : KVMap
  deriving Repr, DecidableEq

def emptyStores : Stores := ⟨[], []⟩

/-- Which backend a storage call lands on. -/
inductive Route where
  | secureStore
  | asyncStore
  deriving Repr, DecidableEq

/-- `MAX_SECURE_STORE_SIZE` (line 9). -/
def MAX_SECURE_STORE_SIZE : Nat := 2048

/-- `getStorage(dataSize?)` (lines 254-309) on a native platform:
AsyncStorage for data strictly larger than the SecureStore limit, else the
SecureStore(-with-fallback) interface. -/
def getStorage (dataSize : Option Nat := none) : Route :=
  match dataSize with
  | some n => if MAX_SECURE_STORE_SIZE < n then .asyncStore else .secureStore
  | none => .secureStore

def routeGet (r : Route) (σ : Stores) (k : Key) : Option Val :=
  match r with
  | .secureStore => kvGet k σ.secure
  | .asyncStore => kvGet k σ.async

def routeSet (r : Route) (k : Key) (v : Val) (σ : Stores) : Stores :=
  match r with
  | .secureStore => { σ with secure := kvSet k v σ.secure }
  | .asyncStore => { σ with async := kvSet k v σ.async }

/-- Renderings used by the `JSON.stringify` length model. -/
def serializeOptStr : Option String → String
  | some v => v
  | none => "null"

def serializeBool : Bool → String
  | true => "true"
  | false => "false"

def serializeOptBool : Option Bool → String
  | some b => serializeBool b
  | none => "null"

def serializeOptInt : Option Int → String
  | some i => i.repr
  | none => "null"

/-- Length model of `JSON.stringify` on a term. -/
def serializeTerm (t : AnalysisTerm) : String :=
  "\x7b" ++ t.term_id ++ "," ++ t.term_text ++ ","
    ++ serializeOptBool t.is_valid_sharia ++ ","
    ++ serializeOptBool t.expert_override_is_valid_sharia ++ ","
    ++ serializeOptBool t.is_confirmed_by_user ++ ","
    ++ serializeBool t.has_expert_feedback ++ "\x7d"

/-- Length model of `JSON.stringify(sessionData)`: a JSON-like rendering of
the modelled fields.  Only its `length` is consumed (backend routing); the
round-trip theorems below cover both routing outcomes, so the exact
rendering is immaterial to them. -/
def serializeSession (s : Session) : String :=
  "\x7b" ++ s.session_id ++ ","
    ++ serializeOptStr s.original_filename ++ ","
    ++ String.join ((s.analysis_results.getD []).map serializeTerm) ++ ","
    ++ serializeOptInt s.compliance_percentage ++ ","
    ++ serializeOptStr s.analysis_timestamp ++ ","
    ++ serializeOptStr s.detected_contract_language ++ ","
    ++ serializeOptStr s.original_cloudinary_url ++ "\x7d"

/-! ## Index updates -/

/-- The pure index-update step of `storage.ts` `updateSessionsIndex`
(lines 624-651): skip if present, else head-insert and `slice(0, 100)`. -/
def updateSessionsIndexPure (sessionId : String) (ids : List String) : List String :=
  if sessionId ∈ ids then ids else (sessionId :: ids).take 100

/-- The step as written in `analytics.ts` `updateSessionsIndex`
(lines 819-854): head-insert, then trim only when the length exceeds 100.
(That function applies this same step to both the `sessions_index` and the
`shariaa_sessions` keys.) -/
def updateSessionsIndexAnalytics (sessionId : String) (ids : List String) :
    List String :=
  if sessionId ∈ ids then ids
  else
    let l := sessionId :: ids
    if 100 < l.length then l.take 100 else l

/-- The `sessions_index` list as read through `getStorage()` (SecureStore
route); a missing or malformed entry reads as `[]`. -/
def sessionsIndexList (σ : Stores) : List String :=
  match routeGet (getStorage) σ .sessionsIndex with
  | some (.ids l) => l
  | _ => []

/-- `storage.ts` `updateSessionsIndex` acting on the stores: reads
`sessions_index` through `getStorage()` (SecureStore route), and writes the
head-inserted, capped list back only when the id was new.  Its `catch`
swallows errors, none of which arise in the model. -/
def updateSessionsIndexStore (sessionId : String) (σ : Stores) : Stores :=
  if sessionId ∈ sessionsIndexList σ then σ
  else routeSet (getStorage) .sessionsIndex
         (.ids ((sessionId :: sessionsIndexList σ).take 100)) σ

/-- The `offline_analyses_index` list as read from AsyncStorage. -/
def offlineIndexList (σ : Stores) : List String :=
  match kvGet .offlineAnalysesIndex σ.async with
  | some (.ids l) => l
  | _ => []

/-- `updateOfflineAnalysesIndex` (lines 523-550): AsyncStorage, dedup,
head-insert, cap 50. -/
def updateOfflineAnalysesIndex (sessionId : String) (σ : Stores) : Stores :=
  if sessionId ∈ offlineIndexList σ then σ
  else { σ with async := kvSet .offlineAnalysesIndex
                  (.ids ((sessionId :: offlineIndexList σ).take 50)) σ.async }

/-! ## Session persistence -/

/-- Ambient inputs of a store operation: the device id resolved by
`getOrCreateDeviceId`, the current time (`new Date().toISOString()`), and
the outcome of the opportunistic `downloadPDFForOfflineUse` call (`none`
models a failed or skipped download). -/
structure Env where
  deviceId : String
  now : String
  pdfDownload : Option String
  deriving Repr, DecidableEq

/-- The summary record built by `storeOfflineAnalysis` (lines 419-434). -/
def mkOfflineAnalysis (env : Env) (s : Session) (cachedPdfPath : String) :
    OfflineContractAnalysis :=
  { id := "offline_" ++ s.session_id
    sessionId := s.session_id
    pdfUrl := s.original_cloudinary_url
    localPdfPath := cachedPdfPath
    originalFilename := jsOr s.original_filename "Unknown Contract"
    summary := generateAnalysisSummary s
    complianceScore := calculateComplianceScore s
    flags := generateFlags s
    analysisDate := jsOr s.analysis_timestamp env.now
    termsCount := (s.analysis_results.getD []).length
    issuesCount := ((s.analysis_results.getD []).filter termHasIssue).length
    language := jsOr s.detected_contract_language "en"
    fullSessionData := s
    isOfflineOnly := false }

/-- The restoration breadcrumb (lines 354-361); `compliance_percentage || 0`
coincides with `getD 0` since `0` is itself falsy. -/
def mkRestorationData (env : Env) (s : Session) : RestorationData :=
  { sessionId := s.session_id
    timestamp := env.now
    deviceId := env.deviceId
    analysisTermsCount := (s.analysis_results.getD []).length
    compliancePercentage := s.compliance_percentage.getD 0
    originalFilename := s.original_filename }

/-- Cached-PDF-path resolution of `storeOfflineAnalysis` (lines 388-415) as
invoked from `storeSessionData` (no explicit `localPdfPath`): the download
result when the cloud URL is a string and the download yielded a truthy
path, else the truthy cloud URL itself; `none` when no truthy path
results. -/
def resolveCachedPdfPath (env : Env) (s : Session) : Option String :=
  let fromDownload : Option String :=
    match s.original_cloudinary_url with
    | some u => if u ≠ "" && strTruthy env.pdfDownload then env.pdfDownload
                else none
    | none => none
  match fromDownload with
  | some p => some p
  | none => if strTruthy s.original_cloudinary_url then s.original_cloudinary_url
            else none

/-- `storeOfflineAnalysis` (lines 373-449) as invoked from
`storeSessionData`: with no resolvable PDF path the whole storage step is
skipped; otherwise the summary record is written and the offline index
updated, always through AsyncStorage.  The validation throw at the top
cannot fire here because `storeSessionData` has already checked the session
id. -/
def storeOfflineAnalysis (env : Env) (s : Session) (σ : Stores) : Stores :=
  match resolveCachedPdfPath env s with
  | none => σ
  | some path =>
    let σ1 : Stores :=
      { σ with async := kvSet (.offlineAnalysis s.session_id)
                 (.offline (mkOfflineAnalysis env s path)) σ.async }
    updateOfflineAnalysesIndex s.session_id σ1

/-- The backend `storeSessionData` routes the session record (and the
device-sessions / restoration writes it makes through the same interface)
to: "use nativeStorage for large session data", else `getStorage(size)`. -/
def sessionRoute (s : Session) : Route :=
  if MAX_SECURE_STORE_SIZE < (serializeSession s).length then Route.asyncStore
  else getStorage (some (serializeSession s).length)

/-- The `device_sessions_<deviceId>` list as read through `route`. -/
def deviceSessionsList (route : Route) (env : Env) (σ : Stores) : List String :=
  match routeGet route σ (.deviceSessions env.deviceId) with
  | some (.ids l) => l
  | _ => []

/-- The device-scoped session-list update of `storeSessionData`
(lines 336-345): skip if present, else head-insert and keep the last 50. -/
def updateDeviceSessions (route : Route) (env : Env) (s : Session)
    (σ : Stores) : Stores :=
  if s.session_id ∈ deviceSessionsList route env σ then σ
  else routeSet route (.deviceSessions env.deviceId)
         (.ids ((s.session_id :: deviceSessionsList route env σ).take 50)) σ

/-- The `storeSessionData` body after validation (lines 326-364): persist
the serialized session under `session_<id>` via `sessionRoute`, update the
device-scoped session list through the same routed backend, update the
sessions index, derive and store the offline analysis, and write the
restoration breadcrumb — in that order. -/
def storeSessionDataCore (env : Env) (s : Session) (σ : Stores) : Stores :=
  let route := sessionRoute s
  routeSet route (.restoration s.session_id)
    (.restoration (mkRestorationData env s))
    (storeOfflineAnalysis env s
      (updateSessionsIndexStore s.session_id
        (updateDeviceSessions route env s
          (routeSet route (.session s.session_id) (.sess s) σ))))

/-- `storeSessionData` (lines 312-370): the validation throws propagate
(the `catch` re-throws); backend sub-steps are modelled as succeeding, so
every other call resolves. -/
def storeSessionData (env : Env) (s : Session) (σ : Stores) :
    Except String Stores :=
  if s.session_id = "" then .error "Session ID is required in session data"
  else .ok (storeSessionDataCore env s σ)

/-- The `try` body of `getSessionData` (lines 657-693): validation throw for
an invalid id; otherwise AsyncStorage is consulted first (large payloads are
force-routed there), falling back to the `getStorage()` (SecureStore) route;
a record absent from both yields `null`.  (A non-session value under a
`session_<id>` key is unreachable by construction and mapped to `null`.) -/
def getSessionDataBody (sessionId : String) (σ : Stores) :
    Except String (Option Session) :=
  if sessionId = "" then .error "Valid session ID is required"
  else
    let k := Key.session sessionId
    let d2 := match kvGet k σ.async with
              | some v => some v
              | none => routeGet (getStorage) σ k
    match d2 with
    | some (.sess s) => .ok (some s)
    | some _ => .ok none
    | none => .ok none

/-- `getSessionData` (lines 654-698): the surrounding `catch` logs and
returns `null` for every error — including the validation throw — so the
function never raises. -/
def getSessionData (sessionId : String) (σ : Stores) :
    Except String (Option Session) :=
  match getSessionDataBody sessionId σ with
  | .ok v => .ok v
  | .error _ => .ok none

/-- `getAllStoredSessions` (lines 701-739): read the sessions index via
`getStorage()`, fetch each member through `getSessionData`, skipping empty
ids and entries that fail to load. -/
def getAllStoredSessions (σ : Stores) : List Session :=
  match routeGet (getStorage) σ .sessionsIndex with
  | some (.ids ids) =>
    ids.filterMap (fun id =>
      if id = "" then none
      else match getSessionData id σ with
           | .ok (some s) => some s
           | _ => none)
  | _ => []

/-! ## Backend sync (`src/app/utils/storage.ts`, lines 1130-1241) -/

/-- Observable outcome of one `syncSessionsWithBackend` run: the returned
flag, the final local stores, and the `storeSessionData` /
`uploadSessionToBackend` calls made, in order. -/
structure SyncResult where
  success : Bool
  final : Stores
  storeCalls : List Session
  uploadCalls : List Session
  deriving Repr, DecidableEq

/-- State threaded through the remote-merge loop. -/
structure MergePass where
  stores : Stores
  storeCalls : List Session
  ok : Bool
  deriving Repr, DecidableEq

/-- `syncSessionsWithBackend` (lines 1130-1201) in the run where the remote
fetch resolves with `remoteSessions` (a non-2xx response or a fetch failure
returns `false` before any merging; that run is the trivial
`success := false` one and is not modelled further).  First loop: every
remote session with no local id-match is persisted via `storeSessionData`
(a store throw lands in the outer `catch`, which returns `false` keeping
the partial state).  Second loop: every local session with no remote
id-match is uploaded; upload rejections are caught per-session and affect
nothing.  Local data wins on id collision: a session present on both sides
is neither stored nor uploaded. -/
def syncSessionsWithBackend (env : Env) (remoteSessions : List Session)
    (σ : Stores) : SyncResult :=
  let localSessions := getAllStoredSessions σ
  let pass := remoteSessions.foldl (fun (acc : MergePass) r =>
    if !acc.ok then acc
    else if localSessions.any (fun l => l.session_id == r.session_id) then acc
    else match storeSessionData env r acc.stores with
         | .ok σ' => { stores := σ', storeCalls := acc.storeCalls ++ [r], ok := true }
         | .error _ => { acc with ok := false })
    { stores := σ, storeCalls := [], ok := true }
  if !pass.ok then
    { success := false, final := pass.stores, storeCalls := pass.storeCalls,
      uploadCalls := [] }
  else
    let uploads := localSessions.filter (fun l =>
      !remoteSessions.any (fun r => r.session_id == l.session_id))
    { success := true, final := pass.stores, storeCalls := pass.storeCalls,
      uploadCalls := uploads }

/-! ## Basic store lemmas -/

theorem kvGet_kvSet_same (k : Key) (v : Val) (m : KVMap) :
    kvGet k (kvSet k v m) = some v := by
  simp [kvGet, kvSet]

theorem kvGet_kvSet_ne (k k' : Key) (v : Val) (m : KVMap) (h : k ≠ k') :
    kvGet k (kvSet k' v m) = kvGet k m := by
  simp [kvGet, kvSet, h]

/-- `storage.ts` `updateSessionsIndex` only writes the SecureStore. -/
theorem updateSessionsIndexStore_async (sid : String) (σ : Stores) :
    (updateSessionsIndexStore sid σ).async = σ.async := by
  unfold updateSessionsIndexStore
  split
  · rfl
  · simp [routeSet, getStorage]

/-- `storage.ts` `updateSessionsIndex` leaves every other SecureStore key
alone. -/
theorem updateSessionsIndexStore_secure_frame (sid : String) (σ : Stores)
    (k : Key) (h : k ≠ Key.sessionsIndex) :
    kvGet k (updateSessionsIndexStore sid σ).secure = kvGet k σ.secure := by
  unfold updateSessionsIndexStore
  split
  · rfl
  · simp [routeSet, getStorage, kvGet, kvSet, h]

/-- `updateOfflineAnalysesIndex` never touches the SecureStore. -/
theorem updateOfflineAnalysesIndex_secure (sid : String) (σ : Stores) :
    (updateOfflineAnalysesIndex sid σ).secure = σ.secure := by
  unfold updateOfflineAnalysesIndex
  split <;> rfl

/-- `updateOfflineAnalysesIndex` leaves every other AsyncStorage key
alone. -/
theorem updateOfflineAnalysesIndex_async_frame (sid : String) (σ : Stores)
    (k : Key) (h : k ≠ Key.offlineAnalysesIndex) :
    kvGet k (updateOfflineAnalysesIndex sid σ).async = kvGet k σ.async := by
  unfold updateOfflineAnalysesIndex
  split
  · rfl
  · simp [kvGet, kvSet, h]

/-- `storeOfflineAnalysis` never touches the SecureStore. -/
theorem storeOfflineAnalysis_secure (env : Env) (s : Session) (σ : Stores) :
    (storeOfflineAnalysis env s σ).secure = σ.secure := by
  unfold storeOfflineAnalysis
  split
  · rfl
  · rw [updateOfflineAnalysesIndex_secure]

/-- `storeOfflineAnalysis` writes only `offline_analysis_<id>` and the
offline index on AsyncStorage. -/
theorem storeOfflineAnalysis_async_frame (env : Env) (s : Session)
    (σ : Stores) (k : Key)
    (h1 : ∀ id, k ≠ Key.offlineAnalysis id) (h2 : k ≠ Key.offlineAnalysesIndex) :
    kvGet k (storeOfflineAnalysis env s σ).async = kvGet k σ.async := by
  unfold storeOfflineAnalysis
  split
  · rfl
  · rw [updateOfflineAnalysesIndex_async_frame _ _ _ h2]
    simp [kvGet, kvSet, h1]

/-- `updateDeviceSessions` leaves every session key alone (AsyncStorage). -/
theorem updateDeviceSessions_session_async (r : Route) (env : Env)
    (s : Session) (σ : Stores) (id : String) :
    kvGet (.session id) (updateDeviceSessions r env s σ).async
      = kvGet (.session id) σ.async := by
  unfold updateDeviceSessions
  split
  · rfl
  · cases r <;> simp [routeSet, kvGet, kvSet]

/-- `updateDeviceSessions` leaves every session key alone (SecureStore). -/
theorem updateDeviceSessions_session_secure (r : Route) (env : Env)
    (s : Session) (σ : Stores) (id : String) :
    kvGet (.session id) (updateDeviceSessions r env s σ).secure
      = kvGet (.session id) σ.secure := by
  unfold updateDeviceSessions
  split
  · rfl
  · cases r <;> simp [routeSet, kvGet, kvSet]

/-- A read that hits AsyncStorage directly. -/
theorem getSessionData_async_hit (id : String) (σ : Stores) (s : Session)
    (hid : id ≠ "") (h : kvGet (.session id) σ.async = some (.sess s)) :
    getSessionData id σ = .ok (some s) := by
  simp [getSessionData, getSessionDataBody, hid, h]

/-- A read that misses AsyncStorage and falls back to the SecureStore. -/
theorem getSessionData_secure_hit (id : String) (σ : Stores) (s : Session)
    (hid : id ≠ "") (ha : kvGet (.session id) σ.async = none)
    (hs : kvGet (.session id) σ.secure = some (.sess s)) :
    getSessionData id σ = .ok (some s) := by
  simp [getSessionData, getSessionDataBody, hid, ha, hs, routeGet, getStorage]

/-- A large store lands the session record in AsyncStorage. -/
theorem storeCore_async_hit_large (env : Env) (s : Session) (σ : Stores)
    (hlen : MAX_SECURE_STORE_SIZE < (serializeSession s).length) :
    kvGet (.session s.session_id) (storeSessionDataCore env s σ).async
      = some (.sess s) := by
  have hroute : sessionRoute s = Route.asyncStore := by
    unfold sessionRoute; simp [hlen]
  unfold storeSessionDataCore
  rw [hroute]
  simp only [routeSet]
  rw [kvGet_kvSet_ne _ _ _ _ (by simp)]
  rw [storeOfflineAnalysis_async_frame _ _ _ _ (fun _ => by simp) (by simp)]
  rw [updateSessionsIndexStore_async]
  rw [updateDeviceSessions_session_async]
  simp [routeSet, kvGet_kvSet_same]

/-- A small store leaves the session's AsyncStorage key untouched. -/
theorem storeCore_async_frame_small (env : Env) (s : Session) (σ : Stores)
    (id : String)
    (hlen : ¬ MAX_SECURE_STORE_SIZE < (serializeSession s).length) :
    kvGet (.session id) (storeSessionDataCore env s σ).async
      = kvGet (.session id) σ.async := by
  have hroute : sessionRoute s = Route.secureStore := by
    unfold sessionRoute; simp [getStorage, hlen]
  unfold storeSessionDataCore
  rw [hroute]
  simp only [routeSet]
  rw [storeOfflineAnalysis_async_frame _ _ _ _ (fun _ => by simp) (by simp)]
  rw [updateSessionsIndexStore_async]
  rw [updateDeviceSessions_session_async]

/-- A small store lands the session record in the SecureStore. -/
theorem storeCore_secure_hit_small (env : Env) (s : Session) (σ : Stores)
    (hlen : ¬ MAX_SECURE_STORE_SIZE < (serializeSession s).length) :
    kvGet (.session s.session_id) (storeSessionDataCore env s σ).secure
      = some (.sess s) := by
  have hroute : sessionRoute s = Route.secureStore := by
    unfold sessionRoute; simp [getStorage, hlen]
  unfold storeSessionDataCore
  rw [hroute]
  simp only [routeSet]
  rw [kvGet_kvSet_ne _ _ _ _ (by simp)]
  rw [storeOfflineAnalysis_secure]
  rw [updateSessionsIndexStore_secure_frame _ _ _ (by simp)]
  rw [updateDeviceSessions_session_secure]
  simp [routeSet, kvGet_kvSet_same]

/-- Storing one session never touches another session's AsyncStorage key. -/
theorem storeCore_async_frame_ne (env : Env) (s : Session) (σ : Stores)
    (id : String) (hne : id ≠ s.session_id) :
    kvGet (.session id) (storeSessionDataCore env s σ).async
      = kvGet (.session id) σ.async := by
  unfold storeSessionDataCore
  cases hroute : sessionRoute s
  case secureStore =>
    simp only [routeSet]
    rw [storeOfflineAnalysis_async_frame _ _ _ _ (fun _ => by simp) (by simp)]
    rw [updateSessionsIndexStore_async]
    rw [updateDeviceSessions_session_async]
  case asyncStore =>
    simp only [routeSet]
    rw [kvGet_kvSet_ne _ _ _ _ (by simp)]
    rw [storeOfflineAnalysis_async_frame _ _ _ _ (fun _ => by simp) (by simp)]
    rw [updateSessionsIndexStore_async]
    rw [updateDeviceSessions_session_async]
    simp [kvGet, kvSet, hne]

/-- Storing one session never touches another session's SecureStore key. -/
theorem storeCore_secure_frame_ne (env : Env) (s : Session) (σ : Stores)
    (id : String) (hne : id ≠ s.session_id) :
    kvGet (.session id) (storeSessionDataCore env s σ).secure
      = kvGet (.session id) σ.secure := by
  unfold storeSessionDataCore
  cases hroute : sessionRoute s
  case secureStore =>
    simp only [routeSet]
    rw [kvGet_kvSet_ne _ _ _ _ (by simp)]
    rw [storeOfflineAnalysis_secure]
    rw [updateSessionsIndexStore_secure_frame _ _ _ (by simp)]
    rw [updateDeviceSessions_session_secure]
    simp [kvGet, kvSet, hne]
  case asyncStore =>
    simp only [routeSet]
    rw [storeOfflineAnalysis_secure]
    rw [updateSessionsIndexStore_secure_frame _ _ _ (by simp)]
    rw [updateDeviceSessions_session_secure]

/-- The store→get round trip, on either routing branch, provided no stale
record shadows the session's AsyncStorage key when the payload is small. -/
theorem store_get_roundtrip (env : Env) (s : Session) (σ : Stores)
    (hid : s.session_id ≠ "")
    (hclean : MAX_SECURE_STORE_SIZE < (serializeSession s).length ∨
              kvGet (.session s.session_id) σ.async = none) :
    getSessionData s.session_id (storeSessionDataCore env s σ) = .ok (some s) := by
  by_cases hlen : MAX_SECURE_STORE_SIZE < (serializeSession s).length
  · exact getSessionData_async_hit _ _ _ hid (storeCore_async_hit_large env s σ hlen)
  · have ha : kvGet (.session s.session_id) σ.async = none := by
      rcases hclean with h | h
      · exact absurd h hlen
      · exact h
    exact getSessionData_secure_hit _ _ _ hid
      ((storeCore_async_frame_small env s σ _ hlen).trans ha)
      (storeCore_secure_hit_small env s σ hlen)

/-! ## Claims C5, C6, C8 -/

/-- A valid-id store resolves (the only throw is the missing-id validation). -/
theorem storeSessionData_ok (env : Env) (s : Session) (σ : Stores)
    (hid : s.session_id ≠ "") :
    storeSessionData env s σ = .ok (storeSessionDataCore env s σ) := by
  simp [storeSessionData, hid]

/-- C5 amended.  `storeSessionData(S)` followed by
`getSessionData(S.session_id)` returns S on both routing branches — large
payloads (over 2048 bytes) force-routed to AsyncStorage, small ones to the
SecureStore — provided that, in the small case, no stale record from an
earlier larger version of the same id still shadows the session's
AsyncStorage key (which `getSessionData` consults first). -/
theorem c5_store_get_roundtrip (env : Env) (s : Session) (σ : Stores)
    (hid : s.session_id ≠ "")
    (hclean : MAX_SECURE_STORE_SIZE < (serializeSession s).length ∨
              kvGet (.session s.session_id) σ.async = none) :
    storeSessionData env s σ = .ok (storeSessionDataCore env s σ) ∧
    getSessionData s.session_id (storeSessionDataCore env s σ) = .ok (some s) := by
  exact ⟨storeSessionData_ok env s σ hid, store_get_roundtrip env s σ hid hclean⟩

/-- A small session used by the concrete store/get scenarios. -/
def smallSession : Session :=
  { session_id := "X", original_filename := some "contract.pdf",
    analysis_results := none, compliance_percentage := none,
    analysis_timestamp := none, detected_contract_language := none,
    original_cloudinary_url := none }

/-- The same session id with a payload larger than 2048 bytes. -/
def bigSession : Session :=
  { smallSession with original_filename := some (String.mk (List.replicate 2100 'a')) }

/-- A fixed environment for the concrete scenarios. -/
def envX : Env :=
  { deviceId := "dev1", now := "2026-01-01T00:00:00Z", pdfDownload := none }

/-- Witness for the amended C5: a concrete small-payload round trip from the
empty stores. -/
theorem c5_roundtrip_witness :
    getSessionData "X" (storeSessionDataCore envX smallSession emptyStores)
      = .ok (some smallSession) := by
  exact (c5_store_get_roundtrip envX smallSession emptyStores (by decide)
    (Or.inr rfl)).2

/-- The big session's serialized payload is 2125 bytes (over the 2048-byte
threshold), computed symbolically so the 2100-character filename is never
evaluated character by character. -/
theorem serializeSession_bigSession_length :
    (serializeSession bigSession).length = 2125 := by
  have hb : (String.mk (List.replicate 2100 'a')).length = 2100 :=
    List.length_replicate 2100 'a'
  show ("\x7b" ++ "X" ++ "," ++ String.mk (List.replicate 2100 'a') ++ ","
      ++ "" ++ "," ++ "null" ++ "," ++ "null" ++ "," ++ "null" ++ ","
      ++ "null" ++ "\x7d").length = 2125
  repeat rw [String.length_append]
  rw [hb]
  decide

/-- The small session's serialized payload is well under the threshold. -/
theorem serializeSession_smallSession_length :
    (serializeSession smallSession).length = 37 := rfl

/-- C5 counterexample.  Storing a large session under id "X" (routed to
AsyncStorage), then re-storing a small session with the same id (routed to
the SecureStore), makes `getSessionData "X"` return the stale large record:
`getSessionData` reads AsyncStorage first, where the earlier large payload
still shadows the fresh small one — so store-then-get is not deep-equal to
the stored session for every valid session. -/
theorem c5_counterexample :
    bigSession.session_id = smallSession.session_id ∧
    bigSession ≠ smallSession ∧
    storeSessionData envX bigSession emptyStores
      = .ok (storeSessionDataCore envX bigSession emptyStores) ∧
    storeSessionData envX smallSession
        (storeSessionDataCore envX bigSession emptyStores)
      = .ok (storeSessionDataCore envX smallSession
              (storeSessionDataCore envX bigSession emptyStores)) ∧
    getSessionData "X"
        (storeSessionDataCore envX smallSession
          (storeSessionDataCore envX bigSession emptyStores))
      = .ok (some bigSession) := by
  refine ⟨rfl, by decide, rfl, rfl, ?_⟩
  have hlenBig : MAX_SECURE_STORE_SIZE < (serializeSession bigSession).length := by
    rw [serializeSession_bigSession_length]; decide
  have hlenSmall : ¬ MAX_SECURE_STORE_SIZE < (serializeSession smallSession).length := by
    rw [serializeSession_smallSession_length]; decide
  have h1 : kvGet (.session "X")
      (storeSessionDataCore envX bigSession emptyStores).async
      = some (.sess bigSession) :=
    storeCore_async_hit_large envX bigSession emptyStores hlenBig
  have h2 := storeCore_async_frame_small envX smallSession
    (storeSessionDataCore envX bigSession emptyStores) "X" hlenSmall
  exact getSessionData_async_hit "X" _ bigSession (by decide) (h2.trans h1)

/-- The code-side and spec-side per-term compliance predicates agree. -/
theorem termCompliant_eq_specTermCompliant (t : AnalysisTerm) :
    termCompliant t = specTermCompliant t := by
  unfold termCompliant specTermCompliant
  by_cases h : t.is_confirmed_by_user = some true
  · cases t.expert_override_is_valid_sharia <;> simp [h]
  · cases t.expert_override_is_valid_sharia <;>
      cases t.is_valid_sharia <;> simp [h]

/-- The spec's concrete example: `[{is_valid_sharia:true},
{is_valid_sharia:false}]`, no server-supplied percentage. -/
def exampleTwoTermsSession : Session :=
  { session_id := "ex",
    original_filename := none
    analysis_results := some
      [ { term_id := "t1", term_text := "a", is_valid_sharia := some true,
          expert_override_is_valid_sharia := none, is_confirmed_by_user := none,
          has_expert_feedback := false },
        { term_id := "t2", term_text := "b", is_valid_sharia := some false,
          expert_override_is_valid_sharia := none, is_confirmed_by_user := none,
          has_expert_feedback := false } ]
    compliance_percentage := none
    analysis_timestamp := none
    detected_contract_language := none
    original_cloudinary_url := none }

/-- C6.  With no server-supplied numeric percentage and a nonempty result
list, the derived compliance score equals `round(100 × compliant / total)`
with the spec's compliance precedence (expert override, else user
confirmation, else original judgment, else false); and the spec's two-term
example scores exactly 50. -/
theorem c6_compliance_score_derivation (s : Session)
    (hp : s.compliance_percentage = none)
    (hne : s.analysis_results.getD [] ≠ []) :
    calculateComplianceScore s =
      (jsRound (100 * ((s.analysis_results.getD []).filter specTermCompliant).length)
        ((s.analysis_results.getD []).length) : Int) ∧
    calculateComplianceScore exampleTwoTermsSession = 50 := by
  constructor
  · have hf : termCompliant = specTermCompliant :=
      funext termCompliant_eq_specTermCompliant
    simp [calculateComplianceScore, hp, hf, List.length_eq_zero, hne, Nat.mul_comm]
  · decide

/-- Witness for C6, at the spec's own two-term example. -/
theorem c6_witness :
    calculateComplianceScore exampleTwoTermsSession = 50 ∧
    calculateComplianceScore exampleTwoTermsSession =
      (jsRound
        (100 * ((exampleTwoTermsSession.analysis_results.getD []).filter
                  specTermCompliant).length)
        ((exampleTwoTermsSession.analysis_results.getD []).length) : Int) := by
  have h := c6_compliance_score_derivation exampleTwoTermsSession rfl (by decide)
  exact ⟨h.2, h.1⟩

/-- C8 counterexample.  For the invalid (empty) session id, the `try` body
does throw the validation error, but `getSessionData`'s own `catch` converts
it to a returned `null`: the caller never sees an error, refuting
"raises a validation error synchronously to the caller rather than
returning a result". -/
theorem c8_invalid_id_returns_null :
    getSessionDataBody "" emptyStores = .error "Valid session ID is required" ∧
    getSessionData "" emptyStores = .ok none := ⟨rfl, rfl⟩

/-- C8 amended.  `getSessionData` never raises: every outcome is a returned
value; the invalid (empty) id yields `null` (the internal validation throw
is caught by the function's catch-all), and absence of a stored record also
yields `null`. -/
theorem c8_get_never_raises (id : String) (σ : Stores) :
    (∃ v, getSessionData id σ = .ok v) ∧
    (id = "" → getSessionData id σ = .ok none) ∧
    (kvGet (.session id) σ.async = none → kvGet (.session id) σ.secure = none →
      getSessionData id σ = .ok none) := by
  refine ⟨?_, ?_, ?_⟩
  · unfold getSessionData
    cases h : getSessionDataBody id σ with
    | ok v => exact ⟨v, rfl⟩
    | error e => exact ⟨none, rfl⟩
  · intro h
    subst h
    rfl
  · intro ha hs
    by_cases hid : id = ""
    · subst hid; rfl
    · simp [getSessionData, getSessionDataBody, hid, ha, hs, routeGet, getStorage]

/-- Witness for the amended C8 at a concrete id and the empty stores. -/
theorem c8_witness :
    getSessionData "nope" emptyStores = .ok none ∧
    getSessionData "" emptyStores = .ok none := by
  refine ⟨(c8_get_never_raises "nope" emptyStores).2.2 rfl rfl, ?_⟩
  exact (c8_get_never_raises "" emptyStores).2.1 rfl

/-! ## Claim C7: sessions-index invariants -/

/-- A sequence of insertions via the index-update step, oldest first. -/
def applyIndexUpdates (init : List String) (inserts : List String) : List String :=
  inserts.foldl (fun acc id => updateSessionsIndexPure id acc) init

/-- The step keeps the index duplicate-free. -/
theorem updateSessionsIndexPure_nodup (id : String) (l : List String)
    (h : l.Nodup) : (updateSessionsIndexPure id l).Nodup := by
  by_cases hmem : id ∈ l
  · simpa [updateSessionsIndexPure, hmem]
  · have : (id :: l).Nodup := List.nodup_cons.mpr ⟨hmem, h⟩
    simpa [updateSessionsIndexPure, hmem] using
      List.Nodup.sublist (List.take_sublist 100 (id :: l)) this

/-- The step keeps the index within the 100-entry cap. -/
theorem updateSessionsIndexPure_length (id : String) (l : List String)
    (h : l.length ≤ 100) : (updateSessionsIndexPure id l).length ≤ 100 := by
  by_cases hmem : id ∈ l
  · simp [updateSessionsIndexPure, hmem, h]
  · simp [updateSessionsIndexPure, hmem, List.length_take_le]

/-- Inserting an id already present leaves the index unchanged. -/
theorem updateSessionsIndexPure_mem (id : String) (l : List String)
    (h : id ∈ l) : updateSessionsIndexPure id l = l := by
  simp [updateSessionsIndexPure, h]

/-- The step is idempotent. -/
theorem updateSessionsIndexPure_idem (id : String) (l : List String) :
    updateSessionsIndexPure id (updateSessionsIndexPure id l)
      = updateSessionsIndexPure id l := by
  by_cases hmem : id ∈ l
  · rw [updateSessionsIndexPure_mem id l hmem, updateSessionsIndexPure_mem id l hmem]
  · apply updateSessionsIndexPure_mem
    simp [updateSessionsIndexPure, hmem, List.take_succ_cons]

/-- The `analytics.ts` variant computes the same step as the `storage.ts`
one. -/
theorem updateSessionsIndexAnalytics_eq_pure (id : String) (l : List String) :
    updateSessionsIndexAnalytics id l = updateSessionsIndexPure id l := by
  unfold updateSessionsIndexAnalytics updateSessionsIndexPure
  by_cases hmem : id ∈ l
  · simp [hmem]
  · rw [if_neg hmem, if_neg hmem]
    by_cases h100 : 100 < (id :: l).length
    · simp [h100]
    · simp [h100, List.take_of_length_le
        (by omega : (id :: l).length ≤ 100)]

/-- Any insertion sequence from the empty index yields a duplicate-free
index of at most 100 entries. -/
theorem applyIndexUpdates_nodup_le (inserts : List String) :
    (applyIndexUpdates [] inserts).Nodup ∧
    (applyIndexUpdates [] inserts).length ≤ 100 := by
  suffices h : ∀ (ins init : List String), init.Nodup → init.length ≤ 100 →
      (applyIndexUpdates init ins).Nodup ∧
      (applyIndexUpdates init ins).length ≤ 100 from
    h inserts [] List.nodup_nil (by simp)
  intro ins
  induction ins with
  | nil => intro init h1 h2; exact ⟨h1, h2⟩
  | cons x xs ih =>
    intro init h1 h2
    exact ih _ (updateSessionsIndexPure_nodup x init h1)
      (updateSessionsIndexPure_length x init h2)

theorem take_append_take {α : Type} (a b : List α) (n : Nat) :
    (a ++ b.take n).take n = (a ++ b).take n := by
  rw [List.take_append_eq_append_take, List.take_append_eq_append_take,
      List.take_take, Nat.min_eq_left (Nat.sub_le _ _)]

/-- Inserting distinct ids from the empty index retains the most recent 100,
most-recent-first. -/
theorem applyIndexUpdates_eq_take_reverse (xs : List String)
    (hnd : xs.Nodup) :
    applyIndexUpdates [] xs = xs.reverse.take 100 := by
  suffices h : ∀ (ys acc : List String), ys.Nodup → (∀ x ∈ ys, x ∉ acc) →
      acc.length ≤ 100 →
      applyIndexUpdates acc ys = (ys.reverse ++ acc).take 100 by
    simpa using h xs [] hnd (by simp) (by simp)
  intro ys
  induction ys with
  | nil =>
    intro acc _ _ hlen
    simp [applyIndexUpdates, List.take_of_length_le hlen]
  | cons x t ih =>
    intro acc hnd hdisj hlen
    have hx : x ∉ acc := hdisj x (List.mem_cons_self _ _)
    have step : applyIndexUpdates acc (x :: t)
        = applyIndexUpdates ((x :: acc).take 100) t := by
      simp [applyIndexUpdates, updateSessionsIndexPure, hx]
    rw [step]
    have h1 : t.Nodup := (List.nodup_cons.mp hnd).2
    have h2 : ∀ y ∈ t, y ∉ (x :: acc).take 100 := by
      intro y hy hmem
      have hmem' : y ∈ x :: acc := List.take_subset _ _ hmem
      rcases List.mem_cons.mp hmem' with h | h
      · exact (List.nodup_cons.mp hnd).1 (h ▸ hy)
      · exact hdisj y (List.mem_cons_of_mem _ hy) h
    rw [ih _ h1 h2 (List.length_take_le _ _), take_append_take]
    congr 1
    simp

/-- Inserting 101 distinct ids evicts exactly the single oldest. -/
theorem applyIndexUpdates_eviction (xs : List String) (hnd : xs.Nodup)
    (hlen : xs.length = 101) :
    applyIndexUpdates [] xs = (xs.drop 1).reverse := by
  rw [applyIndexUpdates_eq_take_reverse xs hnd, List.take_reverse, hlen]

/-- C7.  The general sessions index is invariant-preserving under its update
step: any insertion sequence from the empty index yields no duplicate ids
and at most 100 entries; inserting an id already present leaves the index
unchanged (so storing the same session twice keeps the id exactly once, and
the step is idempotent); the `analytics.ts` variant of the step computes
the same function as the `storage.ts` one; and inserting 101 distinct ids
retains the 100 most recently inserted (most-recent-first), evicting only
the single oldest. -/
theorem c7_sessions_index_invariants :
    (∀ inserts : List String,
      (applyIndexUpdates [] inserts).Nodup ∧
      (applyIndexUpdates [] inserts).length ≤ 100) ∧
    (∀ (id : String) (l : List String), id ∈ l →
      updateSessionsIndexPure id l = l) ∧
    (∀ (id : String) (l : List String),
      updateSessionsIndexPure id (updateSessionsIndexPure id l)
        = updateSessionsIndexPure id l) ∧
    (∀ (id : String) (l : List String),
      updateSessionsIndexAnalytics id l = updateSessionsIndexPure id l) ∧
    (∀ xs : List String, xs.Nodup → xs.length = 101 →
      applyIndexUpdates [] xs = (xs.drop 1).reverse) :=
  ⟨applyIndexUpdates_nodup_le, updateSessionsIndexPure_mem,
   updateSessionsIndexPure_idem, updateSessionsIndexAnalytics_eq_pure,
   applyIndexUpdates_eviction⟩

/-- A concrete list of 101 distinct ids. -/
def oneOhOneIds : List String := (List.range 101).map (fun n => Nat.repr n)

/-- Witness for C7 at a concrete insertion sequence of 101 distinct ids. -/
theorem c7_witness :
    oneOhOneIds.Nodup ∧ oneOhOneIds.length = 101 ∧
    applyIndexUpdates [] oneOhOneIds = (oneOhOneIds.drop 1).reverse := by
  refine ⟨by decide, by decide, ?_⟩
  exact c7_sessions_index_invariants.2.2.2.2 oneOhOneIds (by decide) (by decide)

/-! ## Claim C4: sync merge -/

theorem kvGet_secure_routeSet_ne (r : Route) (k q : Key) (v : Val)
    (σ : Stores) (h : q ≠ k) :
    kvGet q (routeSet r k v σ).secure = kvGet q σ.secure := by
  cases r <;> simp [routeSet, kvGet, kvSet, h]

theorem kvGet_secure_updateDeviceSessions (r : Route) (env : Env)
    (s : Session) (σ : Stores) (q : Key)
    (h : ∀ d, q ≠ Key.deviceSessions d) :
    kvGet q (updateDeviceSessions r env s σ).secure = kvGet q σ.secure := by
  unfold updateDeviceSessions
  split
  · rfl
  · exact kvGet_secure_routeSet_ne _ _ _ _ _ (h _)

/-- The raw `sessions_index` binding after `updateSessionsIndex`. -/
theorem updateSessionsIndexStore_raw (sid : String) (σ : Stores) :
    kvGet .sessionsIndex (updateSessionsIndexStore sid σ).secure =
      if sid ∈ sessionsIndexList σ then kvGet .sessionsIndex σ.secure
      else some (.ids ((sid :: sessionsIndexList σ).take 100)) := by
  by_cases hmem : sid ∈ sessionsIndexList σ <;>
    simp [updateSessionsIndexStore, hmem, routeSet, getStorage, kvGet_kvSet_same]

/-- The raw `sessions_index` binding after a full `storeSessionData`. -/
theorem storeCore_raw_index (env : Env) (s : Session) (σ : Stores) :
    kvGet .sessionsIndex (storeSessionDataCore env s σ).secure =
      if s.session_id ∈ sessionsIndexList σ then kvGet .sessionsIndex σ.secure
      else some (.ids ((s.session_id :: sessionsIndexList σ).take 100)) := by
  unfold storeSessionDataCore
  rw [kvGet_secure_routeSet_ne _ _ _ _ _ (by simp)]
  rw [storeOfflineAnalysis_secure]
  rw [updateSessionsIndexStore_raw]
  have e1 : sessionsIndexList (updateDeviceSessions (sessionRoute s) env s
      (routeSet (sessionRoute s) (.session s.session_id) (.sess s) σ))
      = sessionsIndexList σ := by
    unfold sessionsIndexList
    simp only [routeGet, getStorage]
    rw [kvGet_secure_updateDeviceSessions _ _ _ _ _ (fun _ => by simp)]
    rw [kvGet_secure_routeSet_ne _ _ _ _ _ (by simp)]
  rw [e1]
  rw [kvGet_secure_updateDeviceSessions _ _ _ _ _ (fun _ => by simp)]
  rw [kvGet_secure_routeSet_ne _ _ _ _ _ (by simp)]

/-- Storing a different session leaves `getSessionData` untouched. -/
theorem getSessionData_frame (env : Env) (s : Session) (σ : Stores)
    (id : String) (hne : id ≠ s.session_id) :
    getSessionData id (storeSessionDataCore env s σ) = getSessionData id σ := by
  by_cases hid : id = ""
  · subst hid; rfl
  · simp [getSessionData, getSessionDataBody, hid, routeGet, getStorage,
          storeCore_async_frame_ne env s σ id hne,
          storeCore_secure_frame_ne env s σ id hne]

/-- `getAllStoredSessions` over a known raw index. -/
theorem getAllStoredSessions_of_raw (σ : Stores) (L : List String)
    (h : kvGet .sessionsIndex σ.secure = some (.ids L)) :
    getAllStoredSessions σ = L.filterMap (fun id =>
      if id = "" then none
      else match getSessionData id σ with
           | .ok (some s) => some s
           | _ => none) := by
  simp [getAllStoredSessions, routeGet, getStorage, h]

/-- Local state holding exactly sessions A then B, stored from scratch. -/
def pairStore (env : Env) (A B : Session) : Stores :=
  storeSessionDataCore env B (storeSessionDataCore env A emptyStores)

theorem pairStore_raw_index (env : Env) (A B : Session)
    (hAB : A.session_id ≠ B.session_id) :
    kvGet .sessionsIndex (pairStore env A B).secure
      = some (.ids [B.session_id, A.session_id]) := by
  have rawA : kvGet .sessionsIndex
      (storeSessionDataCore env A emptyStores).secure
      = some (.ids [A.session_id]) := by
    rw [storeCore_raw_index]
    simp [sessionsIndexList, routeGet, getStorage, emptyStores, kvGet]
  have idxA : sessionsIndexList (storeSessionDataCore env A emptyStores)
      = [A.session_id] := by
    simp [sessionsIndexList, routeGet, getStorage, rawA]
  rw [pairStore, storeCore_raw_index, idxA]
  simp [Ne.symm hAB]

theorem pairStore_index_list (env : Env) (A B : Session)
    (hAB : A.session_id ≠ B.session_id) :
    sessionsIndexList (pairStore env A B)
      = [B.session_id, A.session_id] := by
  simp [sessionsIndexList, routeGet, getStorage, pairStore_raw_index env A B hAB]

theorem pairStore_get_fst (env : Env) (A B : Session)
    (hA : A.session_id ≠ "") (hAB : A.session_id ≠ B.session_id) :
    getSessionData A.session_id (pairStore env A B) = .ok (some A) := by
  rw [pairStore, getSessionData_frame env B _ A.session_id hAB]
  exact store_get_roundtrip env A emptyStores hA (Or.inr rfl)

theorem pairStore_get_snd (env : Env) (A B : Session)
    (hB : B.session_id ≠ "") (hAB : A.session_id ≠ B.session_id) :
    getSessionData B.session_id (pairStore env A B) = .ok (some B) := by
  have hclean : kvGet (.session B.session_id)
      (storeSessionDataCore env A emptyStores).async = none := by
    rw [storeCore_async_frame_ne env A emptyStores B.session_id (Ne.symm hAB)]
    rfl
  rw [pairStore]
  exact store_get_roundtrip env B _ hB (Or.inr hclean)

theorem pairStore_locals (env : Env) (A B : Session)
    (hA : A.session_id ≠ "") (hB : B.session_id ≠ "")
    (hAB : A.session_id ≠ B.session_id) :
    getAllStoredSessions (pairStore env A B) = [B, A] := by
  rw [getAllStoredSessions_of_raw _ _ (pairStore_raw_index env A B hAB)]
  simp [hA, hB, pairStore_get_fst env A B hA hAB,
        pairStore_get_snd env A B hB hAB]

theorem pairStore_async_clean (env : Env) (A B C : Session)
    (hAC : A.session_id ≠ C.session_id) (hBC : B.session_id ≠ C.session_id) :
    kvGet (.session C.session_id) (pairStore env A B).async = none := by
  rw [pairStore, storeCore_async_frame_ne env B _ C.session_id (Ne.symm hBC),
      storeCore_async_frame_ne env A emptyStores C.session_id (Ne.symm hAC)]
  rfl

/-- C4.  With local sessions {A, B} (stored from scratch) and remote
sessions {B, C}, all ids distinct, `syncSessionsWithBackend` returns `true`,
makes exactly one `storeSessionData` call (for C) and exactly one upload
call (for A), and afterwards local storage holds exactly {A, B, C} — the
sessions index is `[C, B, A]` (most recent first), each id retrieves its
session, and B is modified on neither side (local data wins on id
collision: it is neither re-stored nor uploaded). -/
theorem c4_sync_merge (env : Env) (A B C : Session)
    (hA : A.session_id ≠ "") (hB : B.session_id ≠ "") (hC : C.session_id ≠ "")
    (hAB : A.session_id ≠ B.session_id) (hAC : A.session_id ≠ C.session_id)
    (hBC : B.session_id ≠ C.session_id) :
    syncSessionsWithBackend env [B, C] (pairStore env A B) =
      { success := true,
        final := storeSessionDataCore env C (pairStore env A B),
        storeCalls := [C], uploadCalls := [A] } ∧
    sessionsIndexList (storeSessionDataCore env C (pairStore env A B))
      = [C.session_id, B.session_id, A.session_id] ∧
    getSessionData A.session_id (storeSessionDataCore env C (pairStore env A B))
      = .ok (some A) ∧
    getSessionData B.session_id (storeSessionDataCore env C (pairStore env A B))
      = .ok (some B) ∧
    getSessionData C.session_id (storeSessionDataCore env C (pairStore env A B))
      = .ok (some C) := by
  have hlocals := pairStore_locals env A B hA hB hAB
  refine ⟨?_, ?_, ?_, ?_, ?_⟩
  · simp [syncSessionsWithBackend, hlocals, storeSessionData_ok env C _ hC,
          beq_iff_eq, hAB, hAC, hBC, Ne.symm hAB, Ne.symm hAC, Ne.symm hBC]
  · unfold sessionsIndexList
    simp only [routeGet, getStorage]
    rw [storeCore_raw_index, pairStore_index_list env A B hAB]
    simp [Ne.symm hAC, Ne.symm hBC]
  · rw [getSessionData_frame env C _ A.session_id hAC]
    exact pairStore_get_fst env A B hA hAB
  · rw [getSessionData_frame env C _ B.session_id hBC]
    exact pairStore_get_snd env A B hB hAB
  · exact store_get_roundtrip env C _ hC
      (Or.inr (pairStore_async_clean env A B C hAC hBC))

/-- Three concrete sessions with distinct ids. -/
def sessA : Session := { smallSession with session_id := "A" }

def sessB : Session := { smallSession with session_id := "B" }

def sessC : Session := { smallSession with session_id := "C" }

/-- Witness for C4 at three concrete sessions. -/
theorem c4_witness :
    (syncSessionsWithBackend envX [sessB, sessC]
      (pairStore envX sessA sessB)).success = true ∧
    (syncSessionsWithBackend envX [sessB, sessC]
      (pairStore envX sessA sessB)).storeCalls = [sessC] ∧
    (syncSessionsWithBackend envX [sessB, sessC]
      (pairStore envX sessA sessB)).uploadCalls = [sessA] := by
  have h := c4_sync_merge envX sessA sessB sessC (by decide) (by decide)
    (by decide) (by decide) (by decide) (by decide)
  rw [h.1]
  exact ⟨rfl, rfl, rfl⟩

/-! ## Claim C9: keep-awake release (`src/unnamed/part_001`,
`src/app/services/BackgroundTaskManager.ts`) -/

/-- Combined wake-lock-relevant state: the OS-level keep-awake hold, the
`ProcessingService` active-job ids, and `BackgroundTaskManager`'s
`keepAwakeActive` flag and active maps (ids only). -/
structure WakeState where
  keepAwake : Bool
  activeJobs : List String
  btmKeepAwakeActive : Bool
  btmUploads : List String
  btmProcessing : List String
  deriving Repr, DecidableEq

/-- `ProcessingService.handleAnalysisComplete` (lines 338-362) calls the raw
`deactivateKeepAwake` imported directly from expo-keep-awake (line 5),
unconditionally — it consults no active set.  The timeout and error
handlers (lines 364-413) do the same. -/
def psHandleAnalysisComplete (s : WakeState) : WakeState :=
  { s with keepAwake := false }

/-- `ProcessingService.stopAnalysis` (lines 123-132): clear the timer and
remove the job from the active map (idempotent). -/
def psStopAnalysis (sid : String) (s : WakeState) : WakeState :=
  { s with activeJobs := s.activeJobs.filter (fun j => j ≠ sid) }

/-- The complete-terminal transition of one poll tick: `pollFunction` calls
`handleAnalysisComplete` then `stopAnalysis` (lines 142-145). -/
def psCompleteTransition (sid : String) (s : WakeState) : WakeState :=
  psStopAnalysis sid (psHandleAnalysisComplete s)

/-- `BackgroundTaskManager.deactivateKeepAwake` (lines 502-510): releases
the hold only when its flag is set and both of its active maps are empty. -/
def btmDeactivateKeepAwake (s : WakeState) : WakeState :=
  if s.btmKeepAwakeActive && s.btmUploads.isEmpty && s.btmProcessing.isEmpty
  then { s with keepAwake := false, btmKeepAwakeActive := false }
  else s

/-- C9 counterexample.  With two active jobs (and two active background
processing entries), completing job "a" releases the keep-awake hold even
though job "b" is still active: `ProcessingService`'s terminal handler
calls the raw `deactivateKeepAwake` unconditionally, bypassing
`BackgroundTaskManager`'s guarded release — refuting "released only if that
job was the last active one". -/
theorem c9_released_while_jobs_active :
    (psCompleteTransition "a"
      { keepAwake := true, activeJobs := ["a", "b"],
        btmKeepAwakeActive := true, btmUploads := [],
        btmProcessing := ["a", "b"] }).keepAwake = false ∧
    (psCompleteTransition "a"
      { keepAwake := true, activeJobs := ["a", "b"],
        btmKeepAwakeActive := true, btmUploads := [],
        btmProcessing := ["a", "b"] }).activeJobs = ["b"] ∧
    (psCompleteTransition "a"
      { keepAwake := true, activeJobs := ["a", "b"],
        btmKeepAwakeActive := true, btmUploads := [],
        btmProcessing := ["a", "b"] }).btmProcessing = ["a", "b"] := by
  decide

/-- C9 amended.  `BackgroundTaskManager.deactivateKeepAwake` releases the
hold only when its upload and processing sets are both empty (a nonempty
set makes it a no-op); but `ProcessingService`'s terminal handlers release
the hold unconditionally via the raw expo-keep-awake call, regardless of
the remaining active jobs or uploads. -/
theorem c9_guarded_vs_unconditional_release (s : WakeState) :
    (s.btmUploads ≠ [] ∨ s.btmProcessing ≠ [] → btmDeactivateKeepAwake s = s) ∧
    (psHandleAnalysisComplete s).keepAwake = false := by
  refine ⟨?_, rfl⟩
  intro h
  unfold btmDeactivateKeepAwake
  have hguard :
      (s.btmKeepAwakeActive && s.btmUploads.isEmpty && s.btmProcessing.isEmpty)
        = false := by
    rcases h with h | h <;> simp [List.isEmpty_iff, h]
  simp [hguard]

/-- Witness for the amended C9: a nonempty upload set blocks the guarded
release. -/
theorem c9_witness :
    btmDeactivateKeepAwake
      { keepAwake := true, activeJobs := [], btmKeepAwakeActive := true,
        btmUploads := ["u1"], btmProcessing := [] }
      = { keepAwake := true, activeJobs := [], btmKeepAwakeActive := true,
          btmUploads := ["u1"], btmProcessing := [] } := by
  exact (c9_guarded_vs_unconditional_release _).1 (Or.inl (by decide))

/-! ## Claim C10: persisting retry progress
(`src/app/services/BackgroundTaskManager.ts`, lines 403-444) -/

/-- A `BackgroundProcessing` entry (lines 23-28), sans the session id used
as its map key. -/
structure ProcEntry where
  startTime : Nat
  retryCount : Nat
  maxRetries : Nat
  deriving Repr, DecidableEq

/-- A `BackgroundUpload` entry (lines 15-21), file payload omitted. -/
structure UploadEntry where
  sessionId : String
  startTime : Nat
  retryCount : Nat
  deriving Repr, DecidableEq

/-- BackgroundTaskManager state: the two in-memory maps plus the two
persisted AsyncStorage keys (`activeBackgroundProcessing`,
`activeBackgroundUploads`); `none` models a key never written. -/
structure BTMState where
  activeProcessing : List (String × ProcEntry)
  activeUploads : List (String × UploadEntry)
  storedProcessing : Option (List (String × ProcEntry))
  storedUploads : Option (List (String × UploadEntry))
  deriving Repr, DecidableEq

/-- `persistActiveProcessing` (lines 535-542). -/
def persistActiveProcessing (s : BTMState) : BTMState :=
  { s with storedProcessing := some s.activeProcessing }

/-- `persistActiveUploads` (lines 512-519). -/
def persistActiveUploads (s : BTMState) : BTMState :=
  { s with storedUploads := some s.activeUploads }

/-- `Map.set`: replace in place or append. -/
def alistSet (k : String) (v : ProcEntry) :
    List (String × ProcEntry) → List (String × ProcEntry)
  | [] => [(k, v)]
  | (k', v') :: t =>
    if k' = k then (k, v) :: t else (k', v') :: alistSet k v t

/-- `Map.delete`. -/
def alistRemove (k : String) (l : List (String × ProcEntry)) :
    List (String × ProcEntry) :=
  l.filter (fun kv => kv.1 ≠ k)

/-- The `catch` branch of `processActiveAnalyses` for one entry
(lines 403-444), driven by the thrown error's message: a not-found match
removes the entry and persists the processing map; otherwise `retryCount`
is incremented; with the budget exhausted the entry is removed, the
processing map persisted and an error notification scheduled; otherwise the
updated entry is put back in the in-memory map and — as written at
line 443 — `persistActiveUploads()` is called, not
`persistActiveProcessing()`. -/
def processAnalysisErrorBranch (sid : String) (p : ProcEntry) (msg : String)
    (s : BTMState) : BTMState :=
  if isNotFoundMsg msg then
    persistActiveProcessing
      { s with activeProcessing := alistRemove sid s.activeProcessing }
  else
    let p' : ProcEntry := { p with retryCount := p.retryCount + 1 }
    if p'.maxRetries ≤ p'.retryCount then
      persistActiveProcessing
        { s with activeProcessing := alistRemove sid s.activeProcessing }
    else
      persistActiveUploads
        { s with activeProcessing := alistSet sid p' s.activeProcessing }

/-- C10.  On a generic (non-not-found) status-check error with retry budget
remaining, the incremented retryCount reaches only the in-memory map: the
code calls `persistActiveUploads()` (line 443) where the parallel
still-processing branch (line 400) calls `persistActiveProcessing()`, so
the persisted `activeBackgroundProcessing` key keeps the stale retryCount
(0 here) while `activeBackgroundUploads` is rewritten — retry progress does
not survive process suspension. -/
theorem c10_retry_progress_not_persisted :
    isNotFoundMsg "network request failed" = false ∧
    (processAnalysisErrorBranch "s1" ⟨0, 0, 50⟩ "network request failed"
      { activeProcessing := [("s1", ⟨0, 0, 50⟩)], activeUploads := [],
        storedProcessing := some [("s1", ⟨0, 0, 50⟩)], storedUploads := none })
      = { activeProcessing := [("s1", ⟨0, 1, 50⟩)], activeUploads := [],
          storedProcessing := some [("s1", ⟨0, 0, 50⟩)],
          storedUploads := some [] } := by
  decide

end EditApp
